import Mathlib

/-!
Verification of the postcall-agents-system call pipeline against its
natural-language specification.  The Python sources under `backend/` are
shallowly embedded as executable Lean definitions; each claim from the
specification is then settled by a theorem about those definitions.

Embedding conventions:
* SQLAlchemy rows become Lean structures; nullable columns become `Option`.
* `datetime.utcnow()` becomes an explicit `now : Nat` parameter.
* Python dict truthiness (`if x:`) is modelled field by field (`Option`,
  empty-string and zero checks) exactly where the source relies on it.
* A raised exception is the `none` / failure branch of the embedding.
-/

/-- Embeds `CallStatus` enum from `backend/app/models/call.py`. -/
inductive CallStatus where
  | pending
  | processing
  | transcribing
  | analyzing
  | updating_crm
  | sending_email
  | completed
  | failed
  | cancelled
deriving DecidableEq, Repr

/-- Terminal statuses per the spec's state machine (`COMPLETED`, `FAILED`,
`CANCELLED`). -/
def CallStatus.isTerminal : CallStatus → Bool
  | .completed => true
  | .failed => true
  | .cancelled => true
  | _ => false

/-- Quality-metrics block of a parsed AI analysis response
(`analysis.get("quality_metrics", {})` in the workers). -/
structure QualityData where
  quality_score : Option Int
  asked_for_meeting : Bool
  talk_ratio : Option Int
  questions_asked : Nat
  strengths : List String
  improvements : List String
  playbook_adherence : Option Int
deriving DecidableEq, Repr

/-- A provider response after `json.loads` in `services/ai_service.py`:
whatever keys the provider returned, unvalidated.  Absent keys are `none`
(`dict.get` returns `None`) or the worker-supplied defaults. -/
structure ParsedAnalysis where
  prospect_name : Option String
  company_name : Option String
  summary : Option String
  pain_points : List String
  sentiment_score : Option Int
  next_steps : List String
  follow_up_email : Option String
  competitors_mentioned : List String
  objections : List String
  quality_metrics : Option QualityData
deriving DecidableEq, Repr

/-- Embeds `analysis.get("quality_metrics", {})`: missing block defaults to the
empty dict, whose `get` calls then yield the worker defaults. -/
def getQM (a : ParsedAnalysis) : QualityData :=
  a.quality_metrics.getD
    { quality_score := none, asked_for_meeting := false, talk_ratio := none
      questions_asked := 0, strengths := [], improvements := []
      playbook_adherence := none }

namespace Models

/-- The mutable fields of the `Call` row in `backend/app/models/call.py`
that its lifecycle methods read or write. -/
structure Call where
  status : CallStatus
  processing_started_at : Option Nat
  processing_completed_at : Option Nat
  processing_error : Option String
  processing_attempts : Nat
  insights : Option ParsedAnalysis
  quality_metrics : Option QualityData
  strategic_advice : Option String
  follow_up_email : Option String
  sentiment_score : Option Int
  crm_update_result : Option String
  crm_record_id : Option String
  crm_synced_at : Option Nat
  total_processing_time_seconds : Option Nat
deriving DecidableEq, Repr

/-- Embeds `Call.get_processing_time`. -/
def Call.get_processing_time (c : Call) : Option Nat :=
  match c.processing_started_at, c.processing_completed_at with
  | some s, some e => some (e - s)
  | _, _ => none

/-- Embeds `Call.mark_as_processing`: unconditional status write. -/
def Call.mark_as_processing (now : Nat) (c : Call) : Call :=
  { c with
    status := CallStatus.processing
    processing_started_at := some now
    processing_error := none
    processing_attempts := c.processing_attempts + 1 }

/-- Embeds `Call.mark_as_completed`: unconditional status write plus attachment of
whichever results were passed (dict truthiness modelled by `Option`). -/
def Call.mark_as_completed (now : Nat)
    (insights : Option ParsedAnalysis) (quality : Option QualityData)
    (advice : Option String) (email : Option String) (c : Call) : Call :=
  let c1 := { c with
    status := CallStatus.completed
    processing_completed_at := some now }
  let c2 := match insights with
    | some ins => { c1 with insights := some ins
                            sentiment_score := ins.sentiment_score }
    | none => c1
  let c3 := match quality with
    | some q => { c2 with quality_metrics := some q }
    | none => c2
  let c4 := match advice with
    | some s => { c3 with strategic_advice := some s }
    | none => c3
  let c5 := match email with
    | some s => { c4 with follow_up_email := some s }
    | none => c4
  { c5 with total_processing_time_seconds := c5.get_processing_time }

/-- Embeds `Call.mark_as_failed`. -/
def Call.mark_as_failed (now : Nat) (error : String) (c : Call) : Call :=
  { c with
    status := CallStatus.failed
    processing_completed_at := some now
    processing_error := some error }

/-- Embeds `Call.update_crm_status` (sync-time bookkeeping column omitted as no
claim reads it). -/
def Call.update_crm_status (now : Nat) (result : String)
    (record_id : Option String) (c : Call) : Call :=
  let c1 := { c with crm_update_result := some result }
  let c2 := match record_id with
    | some rid => { c1 with crm_record_id := some rid }
    | none => c1
  { c2 with crm_synced_at := some now }

/-- Embeds `Call.is_processed`. -/
def Call.is_processed (c : Call) : Bool := c.status = CallStatus.completed

/-- Embeds `Call.is_failed`. -/
def Call.is_failed (c : Call) : Bool := c.status = CallStatus.failed

/-- Embeds `Call.can_retry(max_attempts=3)`. -/
def Call.can_retry (max_attempts : Nat) (c : Call) : Bool :=
  c.status = CallStatus.failed && c.processing_attempts < max_attempts

/-- Embeds `Call.reset_for_retry`: unconditional reset to `PENDING`, clearing the
error and timestamp fields, keeping `processing_attempts` and every result
field. -/
def Call.reset_for_retry (c : Call) : Call :=
  { c with
    status := CallStatus.pending
    processing_started_at := none
    processing_completed_at := none
    processing_error := none }

/-- A representative completed call used by concrete counterexamples. -/
def completedCall : Call :=
  { status := CallStatus.completed
    processing_started_at := some 10
    processing_completed_at := some 20
    processing_error := none
    processing_attempts := 1
    insights := none
    quality_metrics := none
    strategic_advice := none
    follow_up_email := none
    sentiment_score := none
    crm_update_result := none
    crm_record_id := none
    crm_synced_at := none
    total_processing_time_seconds := some 10 }

end Models

namespace Orchestrators

/-- Transcription providers known to `services/transcription_service.py`. -/
inductive TProv where
  | deepgram
  | assemblyai
  | whisper
deriving DecidableEq, Repr

/-- Which transcription API keys are configured, and the primary provider
(`settings.TRANSCRIPTION_PROVIDER`). -/
structure TConfig where
  hasDeepgram : Bool
  hasAssembly : Bool
  hasOpenAIKey : Bool
  primary : TProv
deriving DecidableEq, Repr

/-- The guarded dispatch in the `try` block of
`TranscriptionService.transcribe_audio`: the chosen provider is called only
when its key is configured; otherwise a `ValueError` is raised (modelled as
`none` with no provider called).  `beh p = none` models the provider call
raising. -/
def tTryPrimary {α : Type} (cfg : TConfig) (beh : TProv → Option α) :
    Option α × List TProv :=
  match cfg.primary with
  | TProv.deepgram =>
      if cfg.hasDeepgram then (beh TProv.deepgram, [TProv.deepgram])
      else (none, [])
  | TProv.assemblyai =>
      if cfg.hasAssembly then (beh TProv.assemblyai, [TProv.assemblyai])
      else (none, [])
  | TProv.whisper =>
      if cfg.hasOpenAIKey then (beh TProv.whisper, [TProv.whisper])
      else (none, [])

/-- Embeds `TranscriptionService.transcribe_audio`: try the primary provider; on
any exception fall back to Deepgram iff the primary was not Deepgram and a
Deepgram key exists, else re-raise.  Returns the result (`none` = the call
raised) and the list of providers actually called. -/
def transcribeAudio {α : Type} (cfg : TConfig) (beh : TProv → Option α) :
    Option α × List TProv :=
  match tTryPrimary cfg beh with
  | (some v, calls) => (some v, calls)
  | (none, calls) =>
      if cfg.primary ≠ TProv.deepgram ∧ cfg.hasDeepgram = true then
        (beh TProv.deepgram, calls ++ [TProv.deepgram])
      else (none, calls)

/-- AI analysis providers known to `services/ai_service.py`. -/
inductive AProv where
  | anthropic
  | openai
  | gemini
deriving DecidableEq, Repr

/-- Which AI clients are configured, and the primary provider
(`settings.AI_PROVIDER`). -/
structure AConfig where
  hasAnthropic : Bool
  hasOpenAI : Bool
  hasGoogle : Bool
  primary : AProv
deriving DecidableEq, Repr

/-- Guarded dispatch in the `try` block of `AIService.analyze_call`. -/
def aTryPrimary {α : Type} (cfg : AConfig) (beh : AProv → Option α) :
    Option α × List AProv :=
  match cfg.primary with
  | AProv.anthropic =>
      if cfg.hasAnthropic then (beh AProv.anthropic, [AProv.anthropic])
      else (none, [])
  | AProv.openai =>
      if cfg.hasOpenAI then (beh AProv.openai, [AProv.openai])
      else (none, [])
  | AProv.gemini =>
      if cfg.hasGoogle then (beh AProv.gemini, [AProv.gemini])
      else (none, [])

/-- Embeds `AIService.analyze_call`: try the primary provider; on any exception
fall back to Claude when the primary was not `anthropic` and the Anthropic
client exists, else to OpenAI when the primary was not `openai` and the
OpenAI client exists, else re-raise.  A failure of the fallback call itself
propagates (the `elif` is not reached).  Gemini is never a fallback. -/
def analyzeCall {α : Type} (cfg : AConfig) (beh : AProv → Option α) :
    Option α × List AProv :=
  match aTryPrimary cfg beh with
  | (some v, calls) => (some v, calls)
  | (none, calls) =>
      if cfg.primary ≠ AProv.anthropic ∧ cfg.hasAnthropic = true then
        (beh AProv.anthropic, calls ++ [AProv.anthropic])
      else if cfg.primary ≠ AProv.openai ∧ cfg.hasOpenAI = true then
        (beh AProv.openai, calls ++ [AProv.openai])
      else (none, calls)

end Orchestrators

namespace Workers

/-- The `Call` row of `backend/models/call.py` as the workers see it. -/
structure WorkerCall where
  id : String
  organization_id : String
  recording_url : Option String
  duration_seconds : Option Nat
  status : String
deriving DecidableEq, Repr

/-- Embeds `Transcript` row from `backend/models/__init__.py` (fields the worker
writes). -/
structure TranscriptRow where
  callId : String
  content : String
  confidence : Nat
  speaker_labels : List String
  provider : String
deriving DecidableEq, Repr

/-- Embeds `Insight` row as built by `process_call_recording` step 4. -/
structure InsightRow where
  callId : String
  prospect_name : Option String
  company_name : Option String
  summary : Option String
  pain_points : List String
  sentiment_score : Option Int
  next_steps : List String
  follow_up_email : Option String
  competitors_mentioned : List String
  objections : List String
deriving DecidableEq, Repr

/-- Embeds `QualityMetric` row as built by `process_call_recording` step 5. -/
structure QualityRow where
  callId : String
  quality_score : Option Int
  asked_for_meeting : Bool
  talk_ratio : Option Int
  questions_asked : Nat
  strengths : List String
  improvements : List String
  playbook_adherence : Option Int
deriving DecidableEq, Repr

/-- Embeds `CRMIntegration` row from `backend/models/__init__.py`. -/
structure IntegrationRow where
  iid : Nat
  organization_id : String
  provider : String
  sync_enabled : Bool
  last_sync : Option Nat
deriving DecidableEq, Repr

/-- Embeds `Webhook` subscription row from `backend/models/__init__.py`. -/
structure WebhookSub where
  organization_id : String
  url : String
  events : List String
  secret : Option String
  is_active : Bool
deriving DecidableEq, Repr

/-- The persisted state the worker tasks read and write, plus the queue of
fired webhook events and queued CRM syncs (`.delay(...)` calls). -/
structure Db where
  calls : List WorkerCall
  transcripts : List TranscriptRow
  insights : List InsightRow
  qualities : List QualityRow
  integrations : List IntegrationRow
  firedEvents : List (String × String)
  syncQueued : List (String × String)
deriving DecidableEq, Repr

/-- Embeds `db.query(Call).filter(Call.id == call_id).first()`. -/
def findCall (db : Db) (callId : String) : Option WorkerCall :=
  db.calls.find? (fun c => c.id == callId)

/-- Embeds `call.status = s; db.commit()`. -/
def setCallStatus (db : Db) (callId s : String) : Db :=
  { db with calls := db.calls.map (fun c =>
      if c.id == callId then { c with status := s } else c) }

/-- Embeds `call.duration_seconds = d; db.commit()`. -/
def setCallDuration (db : Db) (callId : String) (d : Nat) : Db :=
  { db with calls := db.calls.map (fun c =>
      if c.id == callId then { c with duration_seconds := some d } else c) }

/-- What `transcribe_audio` hands back to the worker on success. -/
structure TranscriptData where
  transcript : String
  confidence : Nat
  speakers : List String
  provider : String
  duration : Nat
deriving DecidableEq, Repr

/-- Step 4 of `process_call_recording`: the `Insight(...)` constructor
call, field for field. -/
def buildInsight (callId : String) (a : ParsedAnalysis) : InsightRow :=
  { callId := callId
    prospect_name := a.prospect_name
    company_name := a.company_name
    summary := a.summary
    pain_points := a.pain_points
    sentiment_score := a.sentiment_score
    next_steps := a.next_steps
    follow_up_email := a.follow_up_email
    competitors_mentioned := a.competitors_mentioned
    objections := a.objections }

/-- Step 5 of `process_call_recording`: the `QualityMetric(...)`
constructor call over `analysis.get("quality_metrics", {})`. -/
def buildQuality (callId : String) (q : QualityData) : QualityRow :=
  { callId := callId
    quality_score := q.quality_score
    asked_for_meeting := q.asked_for_meeting
    talk_ratio := q.talk_ratio
    questions_asked := q.questions_asked
    strengths := q.strengths
    improvements := q.improvements
    playbook_adherence := q.playbook_adherence }

/-- Outcome of one delivery of the `process_call_recording` task. -/
inductive PipeResult where
  | notFound
  | success
  | retryScheduled (delay : Nat)
deriving DecidableEq, Repr

/-- The `except` block of `process_call_recording`: re-query the call, set
its status to `failed`, and re-raise via `self.retry` with countdown
`60 * (2 ** self.request.retries)`. -/
def failPipeline (db : Db) (callId : String) (retries : Nat) :
    Db × PipeResult :=
  match findCall db callId with
  | some _ =>
      (setCallStatus db callId "failed",
       PipeResult.retryScheduled (60 * 2 ^ retries))
  | none => (db, PipeResult.retryScheduled (60 * 2 ^ retries))

/-- Embeds `process_call_recording` from `backend/workers/call_processing.py`.
External effects are parameters: `transOutcome` is what
`transcription_service.transcribe_audio` returns (`none` = it raised) and
`analysisOutcome` what `ai_service.analyze_call` returns.  The task body is
followed step by step; `db.commit()` points are where the intermediate
states become visible.  The function has no idempotency-key check. -/
def processCallRecording (retries : Nat) (transOutcome : Option TranscriptData)
    (analysisOutcome : Option ParsedAnalysis) (callId : String) (db : Db) :
    Db × PipeResult :=
  match findCall db callId with
  | none => (db, PipeResult.notFound)
  | some call =>
    let db1 := setCallStatus db callId "processing"
    let step : Sum Db (Db × Option String) :=
      match call.recording_url with
      | some _ =>
          match transOutcome with
          | none => Sum.inl db1
          | some td =>
              let db2 := { db1 with transcripts := db1.transcripts ++
                [{ callId := callId, content := td.transcript
                   confidence := td.confidence, speaker_labels := td.speakers
                   provider := td.provider }] }
              let db2 := if td.duration ≠ 0 then
                  setCallDuration db2 callId td.duration
                else db2
              Sum.inr (db2, some td.transcript)
      | none =>
          match db1.transcripts.find? (fun t => t.callId == callId) with
          | some t => Sum.inr (db1, some t.content)
          | none => Sum.inr (db1, none)
    match step with
    | Sum.inl dbf => failPipeline dbf callId retries
    | Sum.inr (db2, tdata) =>
      match tdata with
      | none => failPipeline db2 callId retries
      | some _ =>
        match analysisOutcome with
        | none => failPipeline db2 callId retries
        | some a =>
          let db3 := { db2 with
            insights := db2.insights ++ [buildInsight callId a]
            qualities := db2.qualities ++ [buildQuality callId (getQM a)] }
          let db4 := setCallStatus db3 callId "completed"
          let db5 := { db4 with
            firedEvents := db4.firedEvents ++
              [(call.organization_id, "call.completed")]
            syncQueued := db4.syncQueued ++
              [(call.organization_id, callId)] }
          (db5, PipeResult.success)

/-- Outcome of one delivery of the `sync_call_to_crm` task. -/
inductive SyncTaskResult where
  | noIntegrations
  | notReady
  | done
  | retryScheduled (delay : Nat)
deriving DecidableEq, Repr

/-- The vendor dispatch in `sync_call_to_crm`: only `salesforce`,
`hubspot` and `pipedrive` reach a connector (`oc` says whether that remote
call succeeds); any other provider falls through the `elif` chain with no
remote call and proceeds to the `last_sync` update. -/
def vendorSyncOk (oc : String → Bool) (provider : String) : Bool :=
  if provider == "salesforce" then oc provider
  else if provider == "hubspot" then oc provider
  else if provider == "pipedrive" then oc provider
  else true

/-- Embeds `integration.last_sync = datetime.utcnow(); db.commit()`. -/
def setLastSync (db : Db) (iid : Nat) (now : Nat) : Db :=
  { db with integrations := db.integrations.map (fun i =>
      if i.iid == iid then { i with last_sync := some now } else i) }

/-- The `for integration in integrations` loop of `sync_call_to_crm`: on a
connector error, `self.retry(countdown=120)` is raised and the loop stops;
otherwise `last_sync` is stamped and the loop continues. -/
def syncLoop (now : Nat) (oc : String → Bool) (db : Db) :
    List IntegrationRow → Db × Option Nat
  | [] => (db, none)
  | i :: rest =>
      if vendorSyncOk oc i.provider then
        syncLoop now oc (setLastSync db i.iid now) rest
      else (db, some 120)

/-- Embeds `sync_call_to_crm` from `backend/workers/webhooks.py`: load the
enabled integrations for the organization, bail out when there are none or
the call has no insight yet, then run each connector.  The task never
touches the call row, its results, or the webhook queue. -/
def syncCallToCrm (orgId callId : String) (oc : String → Bool) (now : Nat)
    (db : Db) : Db × SyncTaskResult :=
  let integrations := db.integrations.filter (fun i =>
    i.organization_id == orgId && i.sync_enabled)
  if integrations.isEmpty then (db, SyncTaskResult.noIntegrations)
  else
    match findCall db callId, db.insights.find? (fun r => r.callId == callId) with
    | some _, some _ =>
        match syncLoop now oc db integrations with
        | (db2, none) => (db2, SyncTaskResult.done)
        | (db2, some d) => (db2, SyncTaskResult.retryScheduled d)
    | _, _ => (db, SyncTaskResult.notReady)

/-- One outbound HTTP POST produced by `trigger_webhooks`: its URL, the
three fields of the JSON body, and the header list. -/
structure HttpPost where
  url : String
  bodyEvent : String
  bodyData : String
  bodyOrganizationId : String
  headers : List (String × String)
deriving DecidableEq, Repr

/-- The headers expression of `trigger_webhooks`:
`{"X-Webhook-Secret": webhook.secret} if webhook.secret else {}` (an empty
string is falsy, so no header is sent then). -/
def webhookHeaders (secret : Option String) : List (String × String) :=
  match secret with
  | some s => if s = "" then [] else [("X-Webhook-Secret", s)]
  | none => []

/-- Embeds `trigger_webhooks` from `backend/workers/webhooks.py`: for every
active subscription of the organization whose event list contains the
event, POST the JSON body `{event, data, organization_id}` with the
headers above.  Returns the requests constructed (delivery failures raise
a task retry and do not change the request shape). -/
def triggerWebhooks (orgId eventType data : String)
    (subs : List WebhookSub) : List HttpPost :=
  ((subs.filter (fun w => w.organization_id == orgId && w.is_active)).filter
    (fun w => w.events.contains eventType)).map (fun w =>
      { url := w.url
        bodyEvent := eventType
        bodyData := data
        bodyOrganizationId := orgId
        headers := webhookHeaders w.secret })

/-- Retry countdown of `process_call_recording`
(`workers/call_processing.py`): `60 * (2 ** self.request.retries)`. -/
def backoffCallProcessing (n : Nat) : Nat := 60 * 2 ^ n

/-- Retry countdown of the duplicate `process_call_recording` in
`workers/transcription_worker.py`: `60 * (self.request.retries + 1)`. -/
def backoffTranscriptionWorker (n : Nat) : Nat := 60 * (n + 1)

/-- Embeds `max_retries=3` configured on both task decorators; countdowns are
only ever scheduled for `self.request.retries < max_retries`. -/
def workerMaxRetries : Nat := 3

end Workers

namespace Quota

/-- The fields of `CRMConfig` (`backend/app/models/crm_config.py`) read by
`can_sync` and written by `increment_quota`. -/
structure CRMConfig where
  connection_status : String
  is_active : Bool
  rate_limit_remaining : Option Int
  rate_limit_reset : Option Nat
  quota_used : Nat
  quota_limit : Option Nat
deriving DecidableEq, Repr

/-- Embeds `CRMConfig.is_connected`. -/
def is_connected (c : CRMConfig) : Bool :=
  c.connection_status == "connected" && c.is_active

/-- Embeds `CRMConfig.can_sync`: connection check, then the nested rate-limit
check (returns `False` only when remaining is set and ≤ 0 *and* a reset
time lies in the future), then the quota check `quota_used >=
quota_limit`. -/
def can_sync (now : Nat) (c : CRMConfig) : Bool :=
  if !is_connected c then false
  else if (match c.rate_limit_remaining with
           | some r => decide (r ≤ 0)
           | none => false) &&
          (match c.rate_limit_reset with
           | some t => decide (now < t)
           | none => false) then false
  else if (match c.quota_limit with
           | some l => decide (c.quota_used ≥ l)
           | none => false) then false
  else true

/-- Embeds `CRMConfig.increment_quota`: a plain `self.quota_used += 1`, with no
limit check of its own. -/
def increment_quota (c : CRMConfig) : CRMConfig :=
  { c with quota_used := c.quota_used + 1 }

/-- One sync attempt when its check and increment run as a unit (the
serialized schedule): increment only if `can_sync` passes. -/
def attemptSync (now : Nat) (c : CRMConfig) : CRMConfig × Bool :=
  if can_sync now c then (increment_quota c, true) else (c, false)

/-- Two sync attempts run one after the other (no interleaving). -/
def serializedPair (now : Nat) (c : CRMConfig) : CRMConfig × Bool × Bool :=
  let r1 := attemptSync now c
  let r2 := attemptSync now r1.1
  (r2.1, r1.2, r2.2)

/-- Two sync attempts whose `can_sync` reads both happen before either
`increment_quota` write — the interleaving the read-then-write code
permits. -/
def interleavedPair (now : Nat) (c : CRMConfig) : CRMConfig × Bool × Bool :=
  let r1 := can_sync now c
  let r2 := can_sync now c
  let c1 := if r1 then increment_quota c else c
  let c2 := if r2 then increment_quota c1 else c1
  (c2, r1, r2)

/-- A tenant config standing one below its quota limit. -/
def nearLimitConfig : CRMConfig :=
  { connection_status := "connected"
    is_active := true
    rate_limit_remaining := none
    rate_limit_reset := none
    quota_used := 4
    quota_limit := some 5 }

end Quota

namespace Connector

/-- Embeds `CRMContact` from `backend/integrations/crm/base.py` (custom-field
dict omitted; no claim reads it). -/
structure CRMContact where
  first_name : Option String
  last_name : Option String
  email : Option String
  phone : Option String
  title : Option String
  company : Option String
  crm_id : Option String
deriving DecidableEq, Repr

/-- Embeds `CRMSyncAction` values the default `upsert_contact` can produce. -/
inductive SyncAction where
  | create
  | update
deriving DecidableEq, Repr

/-- Embeds `CRMSyncResult` restricted to the fields the claims read. -/
structure SyncResult where
  success : Bool
  action : SyncAction
  entity_id : Option String
deriving DecidableEq, Repr

/-- An abstract remote CRM: its contact records (the CRM is the source of
truth for existence) and a fresh-id counter. -/
structure RemoteStore where
  contacts : List CRMContact
  nextId : Nat
deriving DecidableEq, Repr

/-- Embeds `search_contact(email)`: the remote lookup by email. -/
def searchContact (st : RemoteStore) (email : String) : Option CRMContact :=
  st.contacts.find? (fun c => c.email == some email)

/-- Embeds `create_contact`: always creates a fresh remote record. -/
def createContact (st : RemoteStore) (c : CRMContact) :
    RemoteStore × SyncResult :=
  let rid := "rec-" ++ toString st.nextId
  ({ contacts := st.contacts ++ [{ c with crm_id := some rid }]
     nextId := st.nextId + 1 },
   { success := true, action := SyncAction.create, entity_id := some rid })

/-- Embeds `update_contact(contact_id, contact)`: overwrites the remote record
with that id; no new record appears. -/
def updateContact (st : RemoteStore) (cid : String) (c : CRMContact) :
    RemoteStore × SyncResult :=
  ({ st with contacts := st.contacts.map (fun x =>
      if x.crm_id == some cid then { c with crm_id := some cid } else x) },
   { success := true, action := SyncAction.update, entity_id := some cid })

/-- Truthiness of `contact.email` (`None` and `""` are falsy). -/
def emailTruthy (c : CRMContact) : Option String :=
  match c.email with
  | some e => if e = "" then none else some e
  | none => none

/-- Embeds `BaseCRMConnector.upsert_contact`: search by email only when the email
is truthy; update only when a record was found whose `crm_id` is truthy;
otherwise create.  The third component records whether `search_contact`
was called. -/
def upsertContact (st : RemoteStore) (c : CRMContact) :
    RemoteStore × SyncResult × Bool :=
  match emailTruthy c with
  | some e =>
      match searchContact st e with
      | some ex =>
          match ex.crm_id with
          | some cid =>
              if cid = "" then
                let r := createContact st c
                (r.1, r.2, true)
              else
                let r := updateContact st cid c
                (r.1, r.2, true)
          | none =>
              let r := createContact st c
              (r.1, r.2, true)
      | none =>
          let r := createContact st c
          (r.1, r.2, true)
  | none =>
      let r := createContact st c
      (r.1, r.2, false)

end Connector

namespace Workers

/-- A pending call with a recording, as the API layer enqueues it. -/
def scenarioCall : WorkerCall :=
  { id := "c1", organization_id := "o1"
    recording_url := some "https://r.example/a.mp3"
    duration_seconds := none, status := "pending" }

/-- Transcription result the provider returns in the scenario runs. -/
def scenarioTd : TranscriptData :=
  { transcript := "Rep: hello. Prospect: we need a pipeline."
    confidence := 95, speakers := [], provider := "deepgram", duration := 120 }

/-- Analysis result the provider returns in the scenario runs. -/
def scenarioAnalysis : ParsedAnalysis :=
  { prospect_name := some "Ada", company_name := some "Acme"
    summary := some "good call", pain_points := ["throughput"]
    sentiment_score := some 7, next_steps := ["demo"]
    follow_up_email := some "Hi Ada", competitors_mentioned := []
    objections := []
    quality_metrics := some
      { quality_score := some 4, asked_for_meeting := true
        talk_ratio := some 40, questions_asked := 5
        strengths := ["listening"], improvements := []
        playbook_adherence := none } }

/-- Initial database: one pending call, one enabled Salesforce
integration, no results yet. -/
def scenarioDb0 : Db :=
  { calls := [scenarioCall], transcripts := [], insights := []
    qualities := []
    integrations := [{ iid := 1, organization_id := "o1"
                       provider := "salesforce", sync_enabled := true
                       last_sync := none }]
    firedEvents := [], syncQueued := [] }

/-- Database after the first (successful) delivery of the processing
job. -/
def scenarioDb1 : Db :=
  (processCallRecording 0 (some scenarioTd) (some scenarioAnalysis) "c1"
    scenarioDb0).1

/-- Database after the duplicate redelivery of the same job against the
already-completed call. -/
def scenarioDb2 : Db :=
  (processCallRecording 0 (some scenarioTd) (some scenarioAnalysis) "c1"
    scenarioDb1).1

theorem setCallStatus_transcripts (db : Db) (cid s : String) :
    (setCallStatus db cid s).transcripts = db.transcripts := rfl

theorem setCallStatus_insights (db : Db) (cid s : String) :
    (setCallStatus db cid s).insights = db.insights := rfl

theorem setCallStatus_qualities (db : Db) (cid s : String) :
    (setCallStatus db cid s).qualities = db.qualities := rfl

theorem setCallStatus_firedEvents (db : Db) (cid s : String) :
    (setCallStatus db cid s).firedEvents = db.firedEvents := rfl

theorem setCallDuration_transcripts (db : Db) (cid : String) (d : Nat) :
    (setCallDuration db cid d).transcripts = db.transcripts := rfl

theorem setCallDuration_insights (db : Db) (cid : String) (d : Nat) :
    (setCallDuration db cid d).insights = db.insights := rfl

theorem setCallDuration_qualities (db : Db) (cid : String) (d : Nat) :
    (setCallDuration db cid d).qualities = db.qualities := rfl

theorem setCallDuration_firedEvents (db : Db) (cid : String) (d : Nat) :
    (setCallDuration db cid d).firedEvents = db.firedEvents := rfl

theorem setLastSync_calls (db : Db) (iid now : Nat) :
    (setLastSync db iid now).calls = db.calls := rfl

theorem setLastSync_firedEvents (db : Db) (iid now : Nat) :
    (setLastSync db iid now).firedEvents = db.firedEvents := rfl

theorem setLastSync_insights (db : Db) (iid now : Nat) :
    (setLastSync db iid now).insights = db.insights := rfl

theorem setLastSync_transcripts (db : Db) (iid now : Nat) :
    (setLastSync db iid now).transcripts = db.transcripts := rfl

theorem setLastSync_qualities (db : Db) (iid now : Nat) :
    (setLastSync db iid now).qualities = db.qualities := rfl

theorem setLastSync_syncQueued (db : Db) (iid now : Nat) :
    (setLastSync db iid now).syncQueued = db.syncQueued := rfl

/-- The per-integration loop of `sync_call_to_crm` only ever writes
`last_sync` columns — every other table is untouched. -/
theorem syncLoop_frame (now : Nat) (oc : String → Bool) :
    ∀ (l : List IntegrationRow) (db : Db),
      ((syncLoop now oc db l).1).calls = db.calls ∧
      ((syncLoop now oc db l).1).firedEvents = db.firedEvents ∧
      ((syncLoop now oc db l).1).insights = db.insights ∧
      ((syncLoop now oc db l).1).transcripts = db.transcripts ∧
      ((syncLoop now oc db l).1).qualities = db.qualities ∧
      ((syncLoop now oc db l).1).syncQueued = db.syncQueued := by
  intro l
  induction l with
  | nil => intro db; exact ⟨rfl, rfl, rfl, rfl, rfl, rfl⟩
  | cons i rest ih =>
      intro db
      by_cases h : vendorSyncOk oc i.provider = true
      · simpa [syncLoop, h] using ih (setLastSync db i.iid now)
      · simp [syncLoop, h]

end Workers

/-- C1 counterexample: `mark_as_processing` moves a COMPLETED (terminal)
record back to PROCESSING, so an operation other than the explicit reset
does move a record out of a terminal state, contrary to the claim. -/
theorem c1_terminal_state_escapes :
    Models.completedCall.status = CallStatus.completed ∧
    CallStatus.isTerminal Models.completedCall.status = true ∧
    (Models.Call.mark_as_processing 5 Models.completedCall).status =
      CallStatus.processing ∧
    CallStatus.isTerminal
      (Models.Call.mark_as_processing 5 Models.completedCall).status =
      false :=
  ⟨rfl, rfl, rfl, rfl⟩

/-- C1 amended: the `Call` lifecycle methods perform no transition
validation at all — each writes its target status unconditionally, from
any current status (terminal ones included), so the only invariant is the
target of each operation, not the spec's transition graph. -/
theorem c1_status_writes_unconditional :
    ∀ (c : Models.Call) (now : Nat) (ins : Option ParsedAnalysis)
      (qm : Option QualityData) (sa em : Option String) (err : String),
      (Models.Call.mark_as_processing now c).status = CallStatus.processing ∧
      (Models.Call.mark_as_completed now ins qm sa em c).status =
        CallStatus.completed ∧
      (Models.Call.mark_as_failed now err c).status = CallStatus.failed ∧
      (Models.Call.reset_for_retry c).status = CallStatus.pending := by
  intro c now ins qm sa em err
  refine ⟨rfl, ?_, rfl, rfl⟩
  cases ins <;> cases qm <;> cases sa <;> cases em <;> rfl

/-- C5 counterexample: `reset_for_retry` applies (and mutates the record)
on a COMPLETED call, although the claim allows it only from FAILED with
attempts below the maximum. -/
theorem c5_reset_applies_outside_failed :
    Models.completedCall.status ≠ CallStatus.failed ∧
    (Models.Call.reset_for_retry Models.completedCall).status =
      CallStatus.pending ∧
    Models.Call.reset_for_retry Models.completedCall ≠
      Models.completedCall :=
  ⟨by decide, rfl, by decide⟩

/-- C5 amended: `reset_for_retry` is unconditional — from any state it
sets the status to PENDING (the initial stage, i.e. a restart of the
pipeline stages), clears the error and timestamp fields, and preserves
`processing_attempts` and every stored result; the FAILED-and-retryable
guard exists only as the separate, unenforced `can_retry` predicate. -/
theorem c5_reset_unconditional :
    ∀ (c : Models.Call) (m : Nat),
      (Models.Call.reset_for_retry c).status = CallStatus.pending ∧
      (Models.Call.reset_for_retry c).processing_started_at = none ∧
      (Models.Call.reset_for_retry c).processing_completed_at = none ∧
      (Models.Call.reset_for_retry c).processing_error = none ∧
      (Models.Call.reset_for_retry c).processing_attempts =
        c.processing_attempts ∧
      (Models.Call.reset_for_retry c).insights = c.insights ∧
      (Models.Call.reset_for_retry c).quality_metrics = c.quality_metrics ∧
      (Models.Call.reset_for_retry c).strategic_advice =
        c.strategic_advice ∧
      (Models.Call.reset_for_retry c).follow_up_email = c.follow_up_email ∧
      (Models.Call.reset_for_retry c).crm_update_result =
        c.crm_update_result ∧
      (Models.Call.can_retry m c = true ↔
        c.status = CallStatus.failed ∧ c.processing_attempts < m) := by
  intro c m
  refine ⟨rfl, rfl, rfl, rfl, rfl, rfl, rfl, rfl, rfl, rfl, ?_⟩
  simp [Models.Call.can_retry]

/-- C9: both workers' retry countdowns are monotone in the attempt number,
and since countdowns are only scheduled for attempts below the configured
`max_retries = 3`, every scheduled delay is bounded by the ceiling reached
at the last retryable attempt (240s for the exponential task, 180s for the
linear one). -/
theorem c9_backoff_monotone_bounded :
    ∀ m n : Nat,
      (m ≤ n →
        Workers.backoffCallProcessing m ≤ Workers.backoffCallProcessing n ∧
        Workers.backoffTranscriptionWorker m ≤
          Workers.backoffTranscriptionWorker n) ∧
      (m < Workers.workerMaxRetries →
        Workers.backoffCallProcessing m ≤
          Workers.backoffCallProcessing (Workers.workerMaxRetries - 1) ∧
        Workers.backoffTranscriptionWorker m ≤
          Workers.backoffTranscriptionWorker (Workers.workerMaxRetries - 1)) ∧
      Workers.backoffCallProcessing (Workers.workerMaxRetries - 1) = 240 ∧
      Workers.backoffTranscriptionWorker (Workers.workerMaxRetries - 1) =
        180 := by
  intro m n
  have hmono : ∀ a b : Nat, a ≤ b →
      Workers.backoffCallProcessing a ≤ Workers.backoffCallProcessing b ∧
      Workers.backoffTranscriptionWorker a ≤
        Workers.backoffTranscriptionWorker b := by
    intro a b hab
    constructor
    · exact Nat.mul_le_mul_left 60 (Nat.pow_le_pow_right (by norm_num) hab)
    · unfold Workers.backoffTranscriptionWorker; omega
  refine ⟨hmono m n, ?_, rfl, rfl⟩
  intro hlt
  exact hmono m (Workers.workerMaxRetries - 1) (by omega)

/-- C9 witness: the theorem at attempts 1 ≤ 2 with 1 below the retry
cap. -/
theorem c9_backoff_monotone_bounded_witness :
    ((1 ≤ 2 →
        Workers.backoffCallProcessing 1 ≤ Workers.backoffCallProcessing 2 ∧
        Workers.backoffTranscriptionWorker 1 ≤
          Workers.backoffTranscriptionWorker 2) ∧
      (1 < Workers.workerMaxRetries →
        Workers.backoffCallProcessing 1 ≤
          Workers.backoffCallProcessing (Workers.workerMaxRetries - 1) ∧
        Workers.backoffTranscriptionWorker 1 ≤
          Workers.backoffTranscriptionWorker (Workers.workerMaxRetries - 1)) ∧
      Workers.backoffCallProcessing (Workers.workerMaxRetries - 1) = 240 ∧
      Workers.backoffTranscriptionWorker (Workers.workerMaxRetries - 1) =
        180) ∧
    Workers.backoffCallProcessing 1 = 120 :=
  ⟨c9_backoff_monotone_bounded 1 2, rfl⟩

/-- C7 counterexample: with the quota one below the limit, the
read-then-write interleaving lets both concurrent sync attempts pass
`can_sync` and both increment, ending at `quota_used = 6` with
`quota_limit = 5`. -/
theorem c7_interleaved_both_pass :
    (Quota.interleavedPair 0 Quota.nearLimitConfig).2.1 = true ∧
    (Quota.interleavedPair 0 Quota.nearLimitConfig).2.2 = true ∧
    ((Quota.interleavedPair 0 Quota.nearLimitConfig).1).quota_used = 6 ∧
    Quota.nearLimitConfig.quota_limit = some 5 ∧
    Quota.nearLimitConfig.quota_used = 4 := by decide

/-- C7 amended: `can_sync` plus `increment_quota` is a separate
read-then-write, not an atomic increment-if-under-limit.  When the two
steps of each attempt run as a unit (serialized), a tenant one below its
limit sees exactly one of two attempts succeed and ends at the limit; but
in the interleaving the plain attribute increment permits — both checks
before either write — both attempts succeed and the counter exceeds the
limit by one. -/
theorem c7_quota_check_not_atomic :
    ∀ (now : Nat) (c : Quota.CRMConfig) (L : Nat),
      Quota.can_sync now c = true →
      c.quota_limit = some L →
      c.quota_used + 1 = L →
      ((Quota.serializedPair now c).2.1 = true ∧
       (Quota.serializedPair now c).2.2 = false ∧
       ((Quota.serializedPair now c).1).quota_used = L) ∧
      ((Quota.interleavedPair now c).2.1 = true ∧
       (Quota.interleavedPair now c).2.2 = true ∧
       ((Quota.interleavedPair now c).1).quota_used = L + 1) := by
  intro now c L hcan hlim hused
  have hat : ∀ d : Quota.CRMConfig, d.quota_limit = some L →
      d.quota_used ≥ L → Quota.can_sync now d = false := by
    intro d hdl hdu
    unfold Quota.can_sync
    split_ifs with h1 h2 h3
    · rfl
    · rfl
    · rfl
    · exfalso
      rw [hdl] at h3
      simp at h3
      omega
  have hsecond : Quota.can_sync now (Quota.increment_quota c) = false := by
    refine hat (Quota.increment_quota c) ?_ ?_
    · exact hlim
    · show c.quota_used + 1 ≥ L
      omega
  constructor
  · unfold Quota.serializedPair Quota.attemptSync
    simp only [hcan, hsecond, if_true, if_false, Bool.false_eq_true,
      if_neg (by simp : ¬False)]
    simp [hcan, hsecond, Quota.increment_quota, hused]
  · unfold Quota.interleavedPair
    simp [hcan, Quota.increment_quota]
    omega

/-- C7 witness: the theorem at the concrete near-limit tenant config. -/
theorem c7_quota_check_not_atomic_witness :
    (Quota.can_sync 0 Quota.nearLimitConfig = true ∧
     Quota.nearLimitConfig.quota_limit = some 5 ∧
     Quota.nearLimitConfig.quota_used + 1 = 5) ∧
    (((Quota.serializedPair 0 Quota.nearLimitConfig).2.1 = true ∧
      (Quota.serializedPair 0 Quota.nearLimitConfig).2.2 = false ∧
      ((Quota.serializedPair 0 Quota.nearLimitConfig).1).quota_used = 5) ∧
     ((Quota.interleavedPair 0 Quota.nearLimitConfig).2.1 = true ∧
      (Quota.interleavedPair 0 Quota.nearLimitConfig).2.2 = true ∧
      ((Quota.interleavedPair 0 Quota.nearLimitConfig).1).quota_used =
        5 + 1)) :=
  ⟨⟨by decide, by decide, by decide⟩,
   c7_quota_check_not_atomic 0 Quota.nearLimitConfig 5 (by decide)
     (by decide) (by decide)⟩

namespace Connector

/-- A contact extracted from a call that carries no email address. -/
def noEmailContact : CRMContact :=
  { first_name := some "Ada", last_name := some "L", email := none
    phone := none, title := none, company := some "Acme", crm_id := none }

/-- The remote record already existing in the CRM for Ada. -/
def storedAda : CRMContact :=
  { first_name := some "Ada", last_name := some "L"
    email := some "ada@acme.example", phone := none, title := none
    company := some "Acme", crm_id := some "rec-0" }

/-- A remote store that already holds Ada's record. -/
def storeWithAda : RemoteStore := { contacts := [storedAda], nextId := 1 }

/-- The locally-built contact for Ada (no CRM id yet). -/
def adaContact : CRMContact :=
  { storedAda with crm_id := none }

/-- An empty remote store. -/
def emptyStore : RemoteStore := { contacts := [], nextId := 0 }

end Connector

/-- C10: the default `upsert_contact` searches only when the contact has a
(truthy) email — without one it calls `create_contact` unconditionally, so
every invocation adds a remote record; and under the precondition that the
email is present and the remote search returns a record with a (truthy)
`crm_id`, it updates in place and adds nothing, which is the
search-before-create idempotence. -/
theorem c10_upsert_email_precondition :
    ∀ (st : Connector.RemoteStore) (c : Connector.CRMContact),
      (Connector.emailTruthy c = none →
        (Connector.upsertContact st c).2.2 = false ∧
        (Connector.upsertContact st c).2.1.action =
          Connector.SyncAction.create ∧
        ((Connector.upsertContact st c).1).contacts.length =
          st.contacts.length + 1) ∧
      (∀ (e cid : String) (ex : Connector.CRMContact),
        Connector.emailTruthy c = some e →
        Connector.searchContact st e = some ex →
        ex.crm_id = some cid → cid ≠ "" →
        (Connector.upsertContact st c).2.2 = true ∧
        (Connector.upsertContact st c).2.1.action =
          Connector.SyncAction.update ∧
        ((Connector.upsertContact st c).1).contacts.length =
          st.contacts.length) := by
  intro st c
  constructor
  · intro h
    simp [Connector.upsertContact, h, Connector.createContact]
  · intro e cid ex h1 h2 h3 h4
    simp [Connector.upsertContact, h1, h2, h3, h4,
      Connector.updateContact]

/-- C10 witness: the theorem at an email-less contact over an empty store
and at Ada's contact over a store already holding her record. -/
theorem c10_upsert_email_precondition_witness :
    (Connector.emailTruthy Connector.noEmailContact = none ∧
     ((Connector.upsertContact Connector.emptyStore
         Connector.noEmailContact).2.2 = false ∧
      (Connector.upsertContact Connector.emptyStore
         Connector.noEmailContact).2.1.action =
        Connector.SyncAction.create ∧
      ((Connector.upsertContact Connector.emptyStore
          Connector.noEmailContact).1).contacts.length =
        Connector.emptyStore.contacts.length + 1)) ∧
    (Connector.emailTruthy Connector.adaContact = some "ada@acme.example" ∧
     Connector.searchContact Connector.storeWithAda "ada@acme.example" =
       some Connector.storedAda ∧
     Connector.storedAda.crm_id = some "rec-0" ∧
     ((Connector.upsertContact Connector.storeWithAda
         Connector.adaContact).2.2 = true ∧
      (Connector.upsertContact Connector.storeWithAda
         Connector.adaContact).2.1.action =
        Connector.SyncAction.update ∧
      ((Connector.upsertContact Connector.storeWithAda
          Connector.adaContact).1).contacts.length =
        Connector.storeWithAda.contacts.length)) :=
  ⟨⟨by decide,
    (c10_upsert_email_precondition Connector.emptyStore
        Connector.noEmailContact).1 (by decide)⟩,
   ⟨by decide, by decide, by decide,
    (c10_upsert_email_precondition Connector.storeWithAda
        Connector.adaContact).2 "ada@acme.example" "rec-0"
      Connector.storedAda (by decide) (by decide) (by decide)
      (by decide)⟩⟩

namespace Orchestrators

/-- All three transcription keys configured, with Deepgram first in the
priority order (and as primary). -/
def allTCfg : TConfig :=
  { hasDeepgram := true, hasAssembly := true, hasOpenAIKey := true
    primary := TProv.deepgram }

/-- Provider behaviour where Deepgram raises and AssemblyAI would
succeed. -/
def dgFailsBeh : TProv → Option Nat := fun p =>
  match p with
  | TProv.assemblyai => some 7
  | _ => none

/-- All three analysis clients configured with Anthropic primary. -/
def allACfg : AConfig :=
  { hasAnthropic := true, hasOpenAI := true, hasGoogle := true
    primary := AProv.anthropic }

/-- The primary attempt of `transcribe_audio` either calls the primary
provider once or raises `ValueError` without calling anyone. -/
theorem tTryPrimary_cases {α : Type} (cfg : TConfig) (beh : TProv → Option α) :
    tTryPrimary cfg beh = (beh cfg.primary, [cfg.primary]) ∨
    tTryPrimary cfg beh = (none, []) := by
  rcases cfg with ⟨hd, ha, ho, p⟩
  cases p <;> simp only [tTryPrimary] <;> split
  all_goals first
    | exact Or.inl rfl
    | exact Or.inr rfl

/-- The primary attempt of `analyze_call` either calls the primary
provider once or raises `ValueError` without calling anyone. -/
theorem aTryPrimary_cases {α : Type} (cfg : AConfig) (beh : AProv → Option α) :
    aTryPrimary cfg beh = (beh cfg.primary, [cfg.primary]) ∨
    aTryPrimary cfg beh = (none, []) := by
  rcases cfg with ⟨hb, ho, hg, p⟩
  cases p <;> simp only [aTryPrimary] <;> split
  all_goals first
    | exact Or.inl rfl
    | exact Or.inr rfl

/-- Every provider `transcribe_audio` calls is the primary or Deepgram,
and none is called twice. -/
theorem transcribeAudio_trace {α : Type} (cfg : TConfig)
    (beh : TProv → Option α) :
    (transcribeAudio cfg beh).2.Nodup ∧
    ∀ p ∈ (transcribeAudio cfg beh).2,
      p = cfg.primary ∨ p = TProv.deepgram := by
  unfold transcribeAudio
  rcases tTryPrimary_cases cfg beh with h | h <;> rw [h]
  · cases hb : beh cfg.primary with
    | some v => simp
    | none =>
        dsimp only
        by_cases hc : cfg.primary ≠ TProv.deepgram ∧ cfg.hasDeepgram = true
        · rw [if_pos hc]
          constructor
          · simp [List.nodup_cons]
            exact fun hx => hc.1 hx
          · intro p hp
            simp at hp
            tauto
        · rw [if_neg hc]
          simp
  · dsimp only
    by_cases hc : cfg.primary ≠ TProv.deepgram ∧ cfg.hasDeepgram = true
    · rw [if_pos hc]; simp
    · rw [if_neg hc]; simp

/-- Every provider `analyze_call` calls is the primary, Anthropic or
OpenAI (never Gemini as a fallback), and none is called twice. -/
theorem analyzeCall_trace {α : Type} (cfg : AConfig)
    (beh : AProv → Option α) :
    (analyzeCall cfg beh).2.Nodup ∧
    ∀ p ∈ (analyzeCall cfg beh).2,
      p = cfg.primary ∨ p = AProv.anthropic ∨ p = AProv.openai := by
  unfold analyzeCall
  rcases aTryPrimary_cases cfg beh with h | h <;> rw [h]
  · cases hb : beh cfg.primary with
    | some v => simp
    | none =>
        dsimp only
        by_cases hc : cfg.primary ≠ AProv.anthropic ∧ cfg.hasAnthropic = true
        · rw [if_pos hc]
          constructor
          · simp [List.nodup_cons]
            exact fun hx => hc.1 hx
          · intro p hp
            simp at hp
            tauto
        · rw [if_neg hc]
          by_cases hc2 : cfg.primary ≠ AProv.openai ∧ cfg.hasOpenAI = true
          · rw [if_pos hc2]
            constructor
            · simp [List.nodup_cons]
              exact fun hx => hc2.1 hx
            · intro p hp
              simp at hp
              tauto
          · rw [if_neg hc2]
            simp
  · dsimp only
    by_cases hc : cfg.primary ≠ AProv.anthropic ∧ cfg.hasAnthropic = true
    · rw [if_pos hc]; simp
    · rw [if_neg hc]
      by_cases hc2 : cfg.primary ≠ AProv.openai ∧ cfg.hasOpenAI = true
      · rw [if_pos hc2]; simp
      · rw [if_neg hc2]; simp

/-- When the primary transcription attempt fails and the primary is not
Deepgram while a Deepgram key exists, the orchestrator's result is exactly
Deepgram's. -/
theorem transcribeAudio_fallback {α : Type} (cfg : TConfig)
    (beh : TProv → Option α)
    (hne : cfg.primary ≠ TProv.deepgram) (hkey : cfg.hasDeepgram = true)
    (hfail : (tTryPrimary cfg beh).1 = none) :
    (transcribeAudio cfg beh).1 = beh TProv.deepgram := by
  unfold transcribeAudio
  rcases h : tTryPrimary cfg beh with ⟨r, calls⟩
  rw [h] at hfail
  simp at hfail
  subst hfail
  dsimp only
  rw [if_pos ⟨hne, hkey⟩]

/-- When the primary analysis attempt fails and the primary is not
Anthropic while the Anthropic client exists, the orchestrator's result is
exactly Claude's. -/
theorem analyzeCall_fallback {α : Type} (cfg : AConfig)
    (beh : AProv → Option α)
    (hne : cfg.primary ≠ AProv.anthropic) (hkey : cfg.hasAnthropic = true)
    (hfail : (aTryPrimary cfg beh).1 = none) :
    (analyzeCall cfg beh).1 = beh AProv.anthropic := by
  unfold analyzeCall
  rcases h : aTryPrimary cfg beh with ⟨r, calls⟩
  rw [h] at hfail
  simp at hfail
  subst hfail
  dsimp only
  rw [if_pos ⟨hne, hkey⟩]

end Orchestrators

/-- C3 counterexample: with all three transcription providers configured
in priority order (Deepgram, AssemblyAI, Whisper), if provider 1
(Deepgram) fails and provider 2 (AssemblyAI) would succeed with result 7,
the orchestrator raises instead of returning provider 2's result —
AssemblyAI is never called. -/
theorem c3_priority_list_not_honored :
    Orchestrators.transcribeAudio Orchestrators.allTCfg
      Orchestrators.dgFailsBeh =
      (none, [Orchestrators.TProv.deepgram]) ∧
    Orchestrators.dgFailsBeh Orchestrators.TProv.assemblyai = some 7 := by
  decide

/-- C3 amended: within one invocation no provider is ever called twice,
but the fallback is not a configured priority-list iteration: the
transcription orchestrator only ever calls the primary and then Deepgram
(so a failing Deepgram-primary exhausts it), and the analysis orchestrator
only the primary and then Anthropic or OpenAI (never Gemini); when the
primary attempt fails and the fixed fallback applies, its result is
returned as-is. -/
theorem c3_fallback_fixed_shape :
    ∀ {α β : Type} (cfg : Orchestrators.TConfig)
      (beh : Orchestrators.TProv → Option α)
      (acfg : Orchestrators.AConfig)
      (abeh : Orchestrators.AProv → Option β),
      ((Orchestrators.transcribeAudio cfg beh).2.Nodup ∧
        ∀ p ∈ (Orchestrators.transcribeAudio cfg beh).2,
          p = cfg.primary ∨ p = Orchestrators.TProv.deepgram) ∧
      ((Orchestrators.analyzeCall acfg abeh).2.Nodup ∧
        ∀ p ∈ (Orchestrators.analyzeCall acfg abeh).2,
          p = acfg.primary ∨ p = Orchestrators.AProv.anthropic ∨
            p = Orchestrators.AProv.openai) ∧
      (cfg.primary ≠ Orchestrators.TProv.deepgram →
        cfg.hasDeepgram = true →
        (Orchestrators.tTryPrimary cfg beh).1 = none →
        (Orchestrators.transcribeAudio cfg beh).1 =
          beh Orchestrators.TProv.deepgram) ∧
      (acfg.primary ≠ Orchestrators.AProv.anthropic →
        acfg.hasAnthropic = true →
        (Orchestrators.aTryPrimary acfg abeh).1 = none →
        (Orchestrators.analyzeCall acfg abeh).1 =
          abeh Orchestrators.AProv.anthropic) :=
  fun cfg beh acfg abeh =>
    ⟨Orchestrators.transcribeAudio_trace cfg beh,
     Orchestrators.analyzeCall_trace acfg abeh,
     fun h1 h2 h3 => Orchestrators.transcribeAudio_fallback cfg beh h1 h2 h3,
     fun h1 h2 h3 => Orchestrators.analyzeCall_fallback acfg abeh h1 h2 h3⟩

/-- C3 witness: the theorem at a configuration whose primary transcription
provider is AssemblyAI (failing) with Deepgram configured, and whose
primary analysis provider is Gemini (failing) with Anthropic configured. -/
theorem c3_fallback_fixed_shape_witness :
    (((Orchestrators.transcribeAudio
        { hasDeepgram := true, hasAssembly := true, hasOpenAIKey := true
          primary := Orchestrators.TProv.assemblyai }
        (fun _ => (none : Option Nat))).2.Nodup ∧
      ∀ p ∈ (Orchestrators.transcribeAudio
        { hasDeepgram := true, hasAssembly := true, hasOpenAIKey := true
          primary := Orchestrators.TProv.assemblyai }
        (fun _ => (none : Option Nat))).2,
          p = Orchestrators.TProv.assemblyai ∨
            p = Orchestrators.TProv.deepgram) ∧
     ((Orchestrators.analyzeCall
        { hasAnthropic := true, hasOpenAI := true, hasGoogle := true
          primary := Orchestrators.AProv.gemini }
        (fun _ => (none : Option Nat))).2.Nodup ∧
      ∀ p ∈ (Orchestrators.analyzeCall
        { hasAnthropic := true, hasOpenAI := true, hasGoogle := true
          primary := Orchestrators.AProv.gemini }
        (fun _ => (none : Option Nat))).2,
          p = Orchestrators.AProv.gemini ∨
            p = Orchestrators.AProv.anthropic ∨
            p = Orchestrators.AProv.openai) ∧
     (Orchestrators.TProv.assemblyai ≠ Orchestrators.TProv.deepgram →
       true = true →
       (Orchestrators.tTryPrimary
         { hasDeepgram := true, hasAssembly := true, hasOpenAIKey := true
           primary := Orchestrators.TProv.assemblyai }
         (fun _ => (none : Option Nat))).1 = none →
       (Orchestrators.transcribeAudio
         { hasDeepgram := true, hasAssembly := true, hasOpenAIKey := true
           primary := Orchestrators.TProv.assemblyai }
         (fun _ => (none : Option Nat))).1 = none) ∧
     (Orchestrators.AProv.gemini ≠ Orchestrators.AProv.anthropic →
       true = true →
       (Orchestrators.aTryPrimary
         { hasAnthropic := true, hasOpenAI := true, hasGoogle := true
           primary := Orchestrators.AProv.gemini }
         (fun _ => (none : Option Nat))).1 = none →
       (Orchestrators.analyzeCall
         { hasAnthropic := true, hasOpenAI := true, hasGoogle := true
           primary := Orchestrators.AProv.gemini }
         (fun _ => (none : Option Nat))).1 = none)) ∧
    (Orchestrators.tTryPrimary
      { hasDeepgram := true, hasAssembly := true, hasOpenAIKey := true
        primary := Orchestrators.TProv.assemblyai }
      (fun _ => (none : Option Nat))).1 = none :=
  ⟨c3_fallback_fixed_shape
      { hasDeepgram := true, hasAssembly := true, hasOpenAIKey := true
        primary := Orchestrators.TProv.assemblyai }
      (fun _ => (none : Option Nat))
      { hasAnthropic := true, hasOpenAI := true, hasGoogle := true
        primary := Orchestrators.AProv.gemini }
      (fun _ => (none : Option Nat)),
   by decide⟩






/-- A provider response whose sentiment score (42) and quality score (9)
are far outside the documented ranges, with required fields missing. -/
def outOfRangeAnalysis : ParsedAnalysis :=
  { prospect_name := none, company_name := none, summary := none
    pain_points := [], sentiment_score := some 42, next_steps := []
    follow_up_email := none, competitors_mentioned := [], objections := []
    quality_metrics := some
      { quality_score := some 9, asked_for_meeting := false
        talk_ratio := none, questions_asked := 0, strengths := []
        improvements := [], playbook_adherence := none } }

/-- C6 counterexample: a structurally invalid response (missing prospect
name, sentiment 42 ∉ [1,10], quality 9 ∉ [1,5]) is accepted by the
analysis orchestrator without any fallback, and the pipeline stores the
out-of-range scores verbatim in the Insight and QualityMetric rows. -/
theorem c6_out_of_range_accepted :
    Orchestrators.analyzeCall Orchestrators.allACfg
      (fun p => if p = Orchestrators.AProv.anthropic
                then some outOfRangeAnalysis else none) =
      (some outOfRangeAnalysis, [Orchestrators.AProv.anthropic]) ∧
    (Workers.buildInsight "c1" outOfRangeAnalysis).sentiment_score =
      some 42 ∧
    ¬(1 ≤ (42 : Int) ∧ (42 : Int) ≤ 10) ∧
    (Workers.buildQuality "c1" (getQM outOfRangeAnalysis)).quality_score =
      some 9 ∧
    ¬(1 ≤ (9 : Int) ∧ (9 : Int) ≤ 5) ∧
    outOfRangeAnalysis.prospect_name = none := by
  refine ⟨rfl, rfl, by decide, rfl, by decide, rfl⟩

/-- C6 amended: the analysis orchestrator performs no structural
validation — whatever dictionary the provider's JSON parses to is returned
verbatim (only a raised exception triggers fallback), and the worker
stores its fields unchanged in the Insight/QualityMetric rows, so no range
constraint on the stored scores is guaranteed. -/
theorem c6_no_validation_passthrough :
    ∀ (a : ParsedAnalysis) (cid : String),
      Orchestrators.analyzeCall Orchestrators.allACfg
        (fun p => if p = Orchestrators.AProv.anthropic
                  then some a else none) =
        (some a, [Orchestrators.AProv.anthropic]) ∧
      (Workers.buildInsight cid a).sentiment_score = a.sentiment_score ∧
      (Workers.buildInsight cid a).prospect_name = a.prospect_name ∧
      (Workers.buildQuality cid (getQM a)).quality_score =
        (getQM a).quality_score ∧
      (Workers.buildQuality cid (getQM a)).talk_ratio =
        (getQM a).talk_ratio := by
  intro a cid
  exact ⟨rfl, rfl, rfl, rfl, rfl⟩

namespace Workers

/-- An active subscription with a signing secret, listening for
`call.completed`. -/
def secretSub : WebhookSub :=
  { organization_id := "o1", url := "https://hooks.example/h1"
    events := ["call.completed"], secret := some "s3cr3t"
    is_active := true }

end Workers

/-- C8 counterexample: the delivered request for a subscription with
secret `s3cr3t` carries the secret itself in an `X-Webhook-Secret` header,
carries no `X-Signature` header at all (no HMAC is computed anywhere), and
its body field is `organization_id`, not `tenant_id`. -/
theorem c8_secret_sent_in_clear :
    Workers.triggerWebhooks "o1" "call.completed" "payload"
      [Workers.secretSub] =
      [{ url := "https://hooks.example/h1"
         bodyEvent := "call.completed"
         bodyData := "payload"
         bodyOrganizationId := "o1"
         headers := [("X-Webhook-Secret", "s3cr3t")] }] ∧
    ("X-Webhook-Secret", "s3cr3t") ∈
      (Workers.triggerWebhooks "o1" "call.completed" "payload"
        [Workers.secretSub]).flatMap (fun r => r.headers) ∧
    "X-Signature" ∉
      ((Workers.triggerWebhooks "o1" "call.completed" "payload"
        [Workers.secretSub]).flatMap (fun r => r.headers)).map Prod.fst := by
  refine ⟨rfl, by decide, by decide⟩

/-- C8 amended: every outbound webhook delivery is an HTTP POST whose JSON
body is `{event, data, organization_id}` and whose only possible header is
`X-Webhook-Secret` carrying the subscription secret in the clear (omitted
when the secret is absent or empty); no HMAC signature header is ever
produced. -/
theorem c8_delivery_shape :
    ∀ (orgId ev data : String) (subs : List Workers.WebhookSub)
      (req : Workers.HttpPost),
      req ∈ Workers.triggerWebhooks orgId ev data subs →
      req.bodyEvent = ev ∧
      req.bodyData = data ∧
      req.bodyOrganizationId = orgId ∧
      (∀ h ∈ req.headers, h.1 = "X-Webhook-Secret") ∧
      ∃ w ∈ subs, w.organization_id = orgId ∧ w.is_active = true ∧
        w.events.contains ev = true ∧ req.url = w.url ∧
        req.headers = Workers.webhookHeaders w.secret := by
  intro orgId ev data subs req hreq
  unfold Workers.triggerWebhooks at hreq
  rw [List.mem_map] at hreq
  obtain ⟨w, hw, hweq⟩ := hreq
  rw [List.mem_filter] at hw
  obtain ⟨hw1, hw2⟩ := hw
  rw [List.mem_filter] at hw1
  obtain ⟨hw0, hw01⟩ := hw1
  simp only [Bool.and_eq_true, beq_iff_eq] at hw01
  subst hweq
  refine ⟨rfl, rfl, rfl, ?_, w, hw0, hw01.1, hw01.2, hw2, rfl, rfl⟩
  intro h hh
  dsimp at hh
  unfold Workers.webhookHeaders at hh
  rcases hs : w.secret with _ | sec
  · rw [hs] at hh; simp at hh
  · rw [hs] at hh
    dsimp only at hh
    by_cases hse : sec = ""
    · rw [if_pos hse] at hh; simp at hh
    · rw [if_neg hse] at hh
      simp at hh
      rw [hh]

/-- The single request produced for `secretSub` in the concrete
scenario. -/
def c8req : Workers.HttpPost :=
  { url := "https://hooks.example/h1"
    bodyEvent := "call.completed"
    bodyData := "payload"
    bodyOrganizationId := "o1"
    headers := [("X-Webhook-Secret", "s3cr3t")] }

/-- C8 witness: the delivery-shape theorem applied to the concrete request
delivered for `secretSub`. -/
theorem c8_delivery_shape_witness :
    c8req ∈ Workers.triggerWebhooks "o1" "call.completed" "payload"
      [Workers.secretSub] ∧
    (c8req.bodyEvent = "call.completed" ∧
     c8req.bodyData = "payload" ∧
     c8req.bodyOrganizationId = "o1" ∧
     (∀ h ∈ c8req.headers, h.1 = "X-Webhook-Secret") ∧
     ∃ w ∈ [Workers.secretSub], w.organization_id = "o1" ∧
       w.is_active = true ∧ w.events.contains "call.completed" = true ∧
       c8req.url = w.url ∧
       c8req.headers = Workers.webhookHeaders w.secret) :=
  ⟨by decide,
   c8_delivery_shape "o1" "call.completed" "payload" [Workers.secretSub]
     c8req (by decide)⟩

/-- C2 counterexample: after the first successful delivery the call is
COMPLETED with one transcript, one insight and one quality metric;
redelivering the identical job (same call, stage and attempt) re-runs the
whole pipeline and attaches a duplicate of each stage result and fires the
completion webhook a second time — it is not a no-op. -/
theorem c2_redelivery_not_noop :
    Workers.scenarioDb1.insights.length = 1 ∧
    Workers.scenarioDb1.transcripts.length = 1 ∧
    (Workers.findCall Workers.scenarioDb1 "c1").map
      (fun c => c.status) = some "completed" ∧
    Workers.scenarioDb2.insights.length = 2 ∧
    Workers.scenarioDb2.transcripts.length = 2 ∧
    Workers.scenarioDb2.qualities.length = 2 ∧
    Workers.scenarioDb2.firedEvents =
      [("o1", "call.completed"), ("o1", "call.completed")] ∧
    Workers.scenarioDb2 ≠ Workers.scenarioDb1 := by
  decide

/-- C2 amended: `process_call_recording` has no idempotency-key check at
all — for any database in which the call exists and has a recording URL,
a (re)delivery with succeeding providers always re-runs every stage,
appends one more transcript, insight and quality row, fires the
completion webhook again, and reports success. -/
theorem c2_redelivery_appends_duplicates :
    ∀ (db : Workers.Db) (cid : String) (call : Workers.WorkerCall)
      (td : Workers.TranscriptData) (a : ParsedAnalysis) (r : Nat),
      Workers.findCall db cid = some call →
      call.recording_url.isSome = true →
      (Workers.processCallRecording r (some td) (some a) cid db).2 =
        Workers.PipeResult.success ∧
      ((Workers.processCallRecording r (some td) (some a) cid db).1).insights.length =
        db.insights.length + 1 ∧
      ((Workers.processCallRecording r (some td) (some a) cid db).1).transcripts.length =
        db.transcripts.length + 1 ∧
      ((Workers.processCallRecording r (some td) (some a) cid db).1).qualities.length =
        db.qualities.length + 1 ∧
      ((Workers.processCallRecording r (some td) (some a) cid db).1).firedEvents =
        db.firedEvents ++ [(call.organization_id, "call.completed")] := by
  intro db cid call td a r hfind hurl
  obtain ⟨u, hu⟩ := Option.isSome_iff_exists.mp hurl
  by_cases hd : td.duration = 0 <;>
    simp [Workers.processCallRecording, hfind, hu, hd,
      Workers.setCallStatus, Workers.setCallDuration]

/-- C2 witness: the amended theorem applied to the redelivery against the
post-success database of the concrete scenario. -/
theorem c2_redelivery_appends_duplicates_witness :
    (Workers.findCall Workers.scenarioDb1 "c1" =
      some { id := "c1", organization_id := "o1"
             recording_url := some "https://r.example/a.mp3"
             duration_seconds := some 120, status := "completed" } ∧
     (Option.some "https://r.example/a.mp3").isSome = true) ∧
    ((Workers.processCallRecording 0 (some Workers.scenarioTd)
        (some Workers.scenarioAnalysis) "c1" Workers.scenarioDb1).2 =
      Workers.PipeResult.success ∧
     ((Workers.processCallRecording 0 (some Workers.scenarioTd)
        (some Workers.scenarioAnalysis) "c1" Workers.scenarioDb1).1).insights.length =
       Workers.scenarioDb1.insights.length + 1 ∧
     ((Workers.processCallRecording 0 (some Workers.scenarioTd)
        (some Workers.scenarioAnalysis) "c1" Workers.scenarioDb1).1).transcripts.length =
       Workers.scenarioDb1.transcripts.length + 1 ∧
     ((Workers.processCallRecording 0 (some Workers.scenarioTd)
        (some Workers.scenarioAnalysis) "c1" Workers.scenarioDb1).1).qualities.length =
       Workers.scenarioDb1.qualities.length + 1 ∧
     ((Workers.processCallRecording 0 (some Workers.scenarioTd)
        (some Workers.scenarioAnalysis) "c1" Workers.scenarioDb1).1).firedEvents =
       Workers.scenarioDb1.firedEvents ++ [("o1", "call.completed")]) :=
  ⟨⟨by decide, by decide⟩,
   c2_redelivery_appends_duplicates Workers.scenarioDb1 "c1"
     { id := "c1", organization_id := "o1"
       recording_url := some "https://r.example/a.mp3"
       duration_seconds := some 120, status := "completed" }
     Workers.scenarioTd Workers.scenarioAnalysis 0 (by decide) (by decide)⟩

/-- C4: `sync_call_to_crm` never writes the call row, the stored stage
results, or the webhook queue — whatever the connector outcome (including
an auth error on every attempt), it only stamps integration `last_sync`
columns.  Concretely, after a successful pipeline run followed by a sync
in which the connector always fails, the call is still COMPLETED (never
reverted to FAILED), the `call.completed` webhook remains fired, and only
the sync task's own outcome (a scheduled retry) reflects the failure. -/
theorem c4_sync_failure_keeps_completed :
    (∀ (db : Workers.Db) (orgId callId : String) (oc : String → Bool)
       (now : Nat),
        ((Workers.syncCallToCrm orgId callId oc now db).1).calls =
          db.calls ∧
        ((Workers.syncCallToCrm orgId callId oc now db).1).firedEvents =
          db.firedEvents ∧
        ((Workers.syncCallToCrm orgId callId oc now db).1).insights =
          db.insights ∧
        ((Workers.syncCallToCrm orgId callId oc now db).1).transcripts =
          db.transcripts ∧
        ((Workers.syncCallToCrm orgId callId oc now db).1).qualities =
          db.qualities) ∧
    ((Workers.findCall (Workers.syncCallToCrm "o1" "c1" (fun _ => false) 99
        Workers.scenarioDb1).1 "c1").map (fun c => c.status) =
      some "completed" ∧
     ("o1", "call.completed") ∈
       ((Workers.syncCallToCrm "o1" "c1" (fun _ => false) 99
         Workers.scenarioDb1).1).firedEvents ∧
     (Workers.syncCallToCrm "o1" "c1" (fun _ => false) 99
        Workers.scenarioDb1).2 =
       Workers.SyncTaskResult.retryScheduled 120) := by
  constructor
  · intro db orgId callId oc now
    unfold Workers.syncCallToCrm
    dsimp only
    split
    · exact ⟨rfl, rfl, rfl, rfl, rfl⟩
    · split
      · rcases hsl : Workers.syncLoop now oc db
            (db.integrations.filter (fun i =>
              i.organization_id == orgId && i.sync_enabled)) with ⟨db2, d⟩
        have hf := Workers.syncLoop_frame now oc
          (db.integrations.filter (fun i =>
            i.organization_id == orgId && i.sync_enabled)) db
        rw [hsl] at hf
        cases d <;> simp [hsl] <;>
          exact ⟨hf.1, hf.2.1, hf.2.2.1, hf.2.2.2.1, hf.2.2.2.2.1⟩
      · exact ⟨rfl, rfl, rfl, rfl, rfl⟩
  · refine ⟨by decide, by decide, by decide⟩
